import Mathlib

/-!
Shallow embedding of the transactional financial/stock core of the
dashboard-operacional repository: the Firestore services in
src/lib/services (compras, contasAReceber, contasBancarias, despesas,
producao) and the vendas service. Money and quantities are JS numbers,
modelled as exact rationals; Firestore runTransaction is modelled as a
function DB -> Except Erro DB whose error case leaves the state untouched.
The web SDK enforces that every transaction.get precede every queued
write: a get issued after a write throws and aborts the transaction.
The embedding models that rule with the readsAfterWrites error wherever
the source issues a read after a write (the item loops of registrarCompra
and registrarProducao).
-/

namespace Dashboard

abbrev Money := ℚ

/-- Calendar date, as used by date-fns. -/
structure SDate where
  year : Int
  month : Int
  day : Int
deriving DecidableEq

def isLeapYear (y : Int) : Bool :=
  (y % 4 == 0 && y % 100 != 0) || (y % 400 == 0)

def daysInMonth (y m : Int) : Int :=
  if m == 2 then (if isLeapYear y then 29 else 28)
  else if m == 4 || m == 6 || m == 9 || m == 11 then 30
  else 31

/-- date-fns addMonths: advance the month count by n, clamping the
day-of-month to the length of the target month. -/
def addMonths (d : SDate) (n : Int) : SDate :=
  let tot : Int := d.year * 12 + (d.month - 1) + n
  let y : Int := tot.fdiv 12
  let m : Int := tot.fmod 12 + 1
  { year := y, month := m, day := min d.day (daysInMonth y m) }

inductive StatusConta where
  | Pendente
  | Paga
deriving DecidableEq

inductive StatusReceber where
  | Pendente
  | Recebida
deriving DecidableEq

inductive StatusVenda where
  | Paga
  | Pendente
  | Inativo
deriving DecidableEq

inductive StatusDoc where
  | Ativo
  | Inativo
deriving DecidableEq

inductive TipoMovBancaria where
  | credito
  | debito
deriving DecidableEq

inductive TipoMovEstoque where
  | entrada
  | saida
deriving DecidableEq

inductive CondicaoPagamento where
  | A_VISTA
  | A_PRAZO
deriving DecidableEq

structure ContaBancaria where
  saldoAtual : Money
deriving DecidableEq

structure MovimentacaoBancaria where
  contaId : String
  valor : Money
  tipo : TipoMovBancaria
  motivo : String
  saldoAnterior : Money
  saldoNovo : Money
deriving DecidableEq

structure Produto where
  quantidade : Money
  custoUnitario : Money
deriving DecidableEq

structure MovimentacaoEstoque where
  produtoId : String
  produtoNome : String
  quantidade : Money
  tipo : TipoMovEstoque
  motivo : String
deriving DecidableEq

/-- A document of the contasAPagar collection. -/
structure ContaAPagarDoc where
  compraId : Option String
  despesaId : Option String
  fornecedorId : String
  notaFiscal : String
  valor : Money
  dataEmissao : SDate
  dataVencimento : SDate
  status : StatusConta
  parcela : String
deriving DecidableEq

/-- A document of the contasAReceber collection. -/
structure ContaAReceberDoc where
  vendaId : String
  valor : Money
  status : StatusReceber
deriving DecidableEq

structure VendaItem where
  produtoId : String
  produtoNome : String
  quantidade : Money
  custoUnitario : Money
deriving DecidableEq

structure VendaDoc where
  produtos : List VendaItem
  status : StatusVenda
deriving DecidableEq

structure CompraDoc where
  status : StatusDoc
deriving DecidableEq

structure DespesaDoc where
  status : StatusConta
deriving DecidableEq

structure ProducaoDoc where
  lote : String
  status : StatusDoc
deriving DecidableEq

/-- The Firestore collections touched by the transactional core.
Collections are association lists keyed by document id; movement
collections are plain lists (newest first). nextId feeds the fresh
document id generator. -/
structure DB where
  contasBancarias : List (String × ContaBancaria)
  produtos : List (String × Produto)
  contasAPagar : List (String × ContaAPagarDoc)
  contasAReceber : List (String × ContaAReceberDoc)
  vendas : List (String × VendaDoc)
  compras : List (String × CompraDoc)
  despesas : List (String × DespesaDoc)
  producoes : List (String × ProducaoDoc)
  movimentacoesBancarias : List MovimentacaoBancaria
  movimentacoesEstoque : List MovimentacaoEstoque
  nextId : Nat
deriving DecidableEq

def lookupA {α : Type} : List (String × α) → String → Option α
  | [], _ => none
  | (k, v) :: t, k2 => if k = k2 then some v else lookupA t k2

def updateA {α : Type} : List (String × α) → String → (α → α) → List (String × α)
  | [], _, _ => []
  | (k, v) :: t, k2, f =>
      if k = k2 then (k, f v) :: updateA t k2 f else (k, v) :: updateA t k2 f

/-- Fresh document ids, as produced by doc(collection(db, ...)). -/
def genId (n : Nat) : String := "doc" ++ toString n

/-- The errors thrown inside the transactional services, one constructor
per throw site family. -/
inductive Erro where
  | contaBancariaObrigatoria
  | contaBancariaNaoEncontrada
  | saldoInsuficiente (saldo : Money)
  | produtoNaoEncontrado (nome : String)
  | estoqueInsuficiente (nome : String) (atual pedido : Money)
  | dataPrimeiroVencimentoObrigatoria
  | readsAfterWrites
deriving DecidableEq

def exceptOk {ε α : Type} : Except ε α → Bool
  | .ok _ => true
  | .error _ => false

/-- Firestore runTransaction semantics: a thrown error aborts the
transaction, leaving the database exactly as it was. -/
def run (op : DB → Except Erro DB) (db : DB) : DB :=
  match op db with
  | .ok db2 => db2
  | .error _ => db

/-- The fields of the ContaAPagar object passed to pagarConta that the
function actually reads. -/
structure ContaAPagarRef where
  id : String
  valor : Money
  notaFiscal : String
  parcela : String
  despesaId : Option String
deriving DecidableEq

/-- The fields of the ContaAReceber object passed to receberPagamento
that the function actually reads. -/
structure ContaAReceberRef where
  id : String
  vendaId : String
  valor : Money
deriving DecidableEq

/-- contasAReceber.services.ts pagarConta: reads the bank account,
rejects an overdraft, marks the payable (and a linked despesa) Paga,
debits the balance and appends a bank movement with before and after
snapshots. The status of the payable itself is never consulted. -/
def pagarConta (conta : ContaAPagarRef) (contaBancariaId : String) (db : DB) :
    Except Erro DB :=
  match lookupA db.contasBancarias contaBancariaId with
  | none => .error .contaBancariaNaoEncontrada
  | some cb =>
    let saldoAtual := cb.saldoAtual
    if saldoAtual < conta.valor then
      .error (.saldoInsuficiente saldoAtual)
    else
      let novoSaldo := saldoAtual - conta.valor
      let db1 := { db with
        contasAPagar := updateA db.contasAPagar conta.id
          (fun c => { c with status := .Paga }) }
      let db2 :=
        match conta.despesaId with
        | some d => { db1 with
            despesas := updateA db1.despesas d (fun e => { e with status := .Paga }) }
        | none => db1
      let db3 := { db2 with
        contasBancarias := updateA db2.contasBancarias contaBancariaId
          (fun c => { c with saldoAtual := novoSaldo }) }
      let mov : MovimentacaoBancaria :=
        { contaId := contaBancariaId
          valor := conta.valor
          tipo := .debito
          motivo := "Pagamento Ref: " ++
            (if conta.notaFiscal = "" then "Despesa" else conta.notaFiscal) ++
            " - Parcela: " ++ conta.parcela
          saldoAnterior := saldoAtual
          saldoNovo := novoSaldo }
      .ok { db3 with movimentacoesBancarias := mov :: db3.movimentacoesBancarias }

/-- contasAReceber.services.ts receberPagamento: reads the bank account,
marks the receivable Recebida, marks the originating venda Paga, credits
the balance and appends a bank movement. No status or overdraft check. -/
def receberPagamento (conta : ContaAReceberRef) (contaBancariaId : String) (db : DB) :
    Except Erro DB :=
  match lookupA db.contasBancarias contaBancariaId with
  | none => .error .contaBancariaNaoEncontrada
  | some cb =>
    let saldoAtual := cb.saldoAtual
    let novoSaldo := saldoAtual + conta.valor
    let db1 := { db with
      contasAReceber := updateA db.contasAReceber conta.id
        (fun c => { c with status := .Recebida }) }
    let db2 := { db1 with
      vendas := updateA db1.vendas conta.vendaId
        (fun v => { v with status := .Paga }) }
    let db3 := { db2 with
      contasBancarias := updateA db2.contasBancarias contaBancariaId
        (fun c => { c with saldoAtual := novoSaldo }) }
    let mov : MovimentacaoBancaria :=
      { contaId := contaBancariaId
        valor := conta.valor
        tipo := .credito
        motivo := "Recebimento da venda ref. " ++ conta.vendaId.take 5
        saldoAnterior := saldoAtual
        saldoNovo := novoSaldo }
    .ok { db3 with movimentacoesBancarias := mov :: db3.movimentacoesBancarias }

/-- contasBancarias.services.ts registrarMovimentacaoBancaria: direct
credit or debit of an account; a debit is rejected when the balance is
short; the movement record snapshots both balances. -/
def registrarMovimentacaoBancaria (contaId : String) (valor : Money)
    (tipo : TipoMovBancaria) (motivo : String) (db : DB) : Except Erro DB :=
  match lookupA db.contasBancarias contaId with
  | none => .error .contaBancariaNaoEncontrada
  | some cb =>
    let saldoAtual := cb.saldoAtual
    if tipo = .debito ∧ saldoAtual < valor then
      .error (.saldoInsuficiente saldoAtual)
    else
      let novoSaldo :=
        match tipo with
        | .credito => saldoAtual + valor
        | .debito => saldoAtual - valor
      let db1 := { db with
        contasBancarias := updateA db.contasBancarias contaId
          (fun c => { c with saldoAtual := novoSaldo }) }
      let mov : MovimentacaoBancaria :=
        { contaId := contaId
          valor := valor
          tipo := tipo
          motivo := motivo
          saldoAnterior := saldoAtual
          saldoNovo := novoSaldo }
      .ok { db1 with movimentacoesBancarias := mov :: db1.movimentacoesBancarias }

structure MovimentacaoPayload where
  produtoId : String
  produtoNome : String
  quantidade : Money
  tipo : TipoMovEstoque
  motivo : String
deriving DecidableEq

/-- contasBancarias.services.ts (stock section) registrarMovimentacao:
one entry or exit movement on a product; an exit is rejected when the
current quantity is short; the cached quantity is updated together with
the appended movement record. -/
def registrarMovimentacao (m : MovimentacaoPayload) (db : DB) : Except Erro DB :=
  match lookupA db.produtos m.produtoId with
  | none => .error (.produtoNaoEncontrado m.produtoNome)
  | some p =>
    let quantidadeAtual := p.quantidade
    match m.tipo with
    | .entrada =>
      let novaQuantidade := quantidadeAtual + m.quantidade
      let db1 := { db with
        produtos := updateA db.produtos m.produtoId
          (fun q => { q with quantidade := novaQuantidade }) }
      let mov : MovimentacaoEstoque :=
        { produtoId := m.produtoId, produtoNome := m.produtoNome,
          quantidade := m.quantidade, tipo := m.tipo, motivo := m.motivo }
      .ok { db1 with movimentacoesEstoque := mov :: db1.movimentacoesEstoque }
    | .saida =>
      if quantidadeAtual < m.quantidade then
        .error (.estoqueInsuficiente m.produtoNome quantidadeAtual m.quantidade)
      else
        let novaQuantidade := quantidadeAtual - m.quantidade
        let db1 := { db with
          produtos := updateA db.produtos m.produtoId
            (fun q => { q with quantidade := novaQuantidade }) }
        let mov : MovimentacaoEstoque :=
          { produtoId := m.produtoId, produtoNome := m.produtoNome,
            quantidade := m.quantidade, tipo := m.tipo, motivo := m.motivo }
        .ok { db1 with movimentacoesEstoque := mov :: db1.movimentacoesEstoque }

structure ItemCompra where
  produtoId : String
  produtoNome : String
  quantidade : Money
  custoUnitario : Money
deriving DecidableEq

structure CompraPayload where
  fornecedorId : String
  notaFiscal : String
  valorTotal : Money
  condicaoPagamento : CondicaoPagamento
  numeroParcelas : Option Nat
  dataPrimeiroVencimento : Option SDate
  data : SDate
  contaBancariaId : Option String
  itens : List ItemCompra
deriving DecidableEq

/-- Step 4 of registrarCompra: the item loop opens each iteration with
transaction.get of the product. By this point the compra write (and the
contas writes) are already queued, and the web SDK rejects any
transaction read issued after a queued write, so the first iteration
throws and the whole transaction aborts: the quantity update, unit-cost
update and movement write in the loop body are dead code. With no items
the loop body never runs. -/
def processarItensCompra (itens : List ItemCompra) (notaFiscal : String) (db : DB) :
    Except Erro DB :=
  match itens with
  | [] => .ok db
  | _ :: _ => .error .readsAfterWrites

/-- The installment documents written by the A_PRAZO branch of
registrarCompra, with the fresh ids they receive. -/
def mkParcelas (compraId : String) (c : CompraPayload) (n : Nat) (d1 : SDate)
    (startId : Nat) : List (String × ContaAPagarDoc) :=
  (List.range n).map fun i =>
    (genId (startId + i),
     { compraId := some compraId
       despesaId := none
       fornecedorId := c.fornecedorId
       notaFiscal := c.notaFiscal
       valor := c.valorTotal / (n : Money)
       dataEmissao := c.data
       dataVencimento := addMonths d1 (i : Int)
       status := .Pendente
       parcela := toString (i + 1) ++ "/" ++ toString n })

/-- compras.services.ts registrarCompra: requires a funding account and
its existence, writes the Compra document, then either queues the
unguarded A_VISTA debit and a single already-Paga payable, or queues the
N Pendente installments (A_PRAZO); finally runs the item loop, whose
post-write product read makes the SDK throw whenever at least one line
item is present, aborting everything queued so far. -/
def registrarCompra (c : CompraPayload) (db : DB) : Except Erro DB :=
  match c.contaBancariaId with
  | none => .error .contaBancariaObrigatoria
  | some cbId =>
    match lookupA db.contasBancarias cbId with
    | none => .error .contaBancariaNaoEncontrada
    | some cb =>
      let compraId := genId db.nextId
      let db0 := { db with
        compras := (compraId, ({ status := .Ativo } : CompraDoc)) :: db.compras
        nextId := db.nextId + 1 }
      let afterContas : Except Erro DB :=
        if c.condicaoPagamento = .A_VISTA then
          let saldoAtual := cb.saldoAtual
          let novoSaldo := saldoAtual - c.valorTotal
          let db1 := { db0 with
            contasBancarias := updateA db0.contasBancarias cbId
              (fun a => { a with saldoAtual := novoSaldo }) }
          let entrada : ContaAPagarDoc :=
            { compraId := some compraId
              despesaId := none
              fornecedorId := c.fornecedorId
              notaFiscal := c.notaFiscal
              valor := c.valorTotal
              dataEmissao := c.data
              dataVencimento := c.data
              status := .Paga
              parcela := "1/1" }
          .ok { db1 with
            contasAPagar := (genId db1.nextId, entrada) :: db1.contasAPagar
            nextId := db1.nextId + 1 }
        else
          match c.dataPrimeiroVencimento with
          | none => .error .dataPrimeiroVencimentoObrigatoria
          | some d1 =>
            let n := c.numeroParcelas.getD 1
            .ok { db0 with
              contasAPagar := mkParcelas compraId c n d1 db0.nextId ++ db0.contasAPagar
              nextId := db0.nextId + n }
      match afterContas with
      | .error e => .error e
      | .ok db2 => processarItensCompra c.itens c.notaFiscal db2

structure VendaPayload where
  produtos : List VendaItem
  condicaoPagamento : CondicaoPagamento
  contaBancariaId : Option String
  data : SDate
  dataVencimento : Option SDate
deriving DecidableEq

/-- Step 1 of registrarVenda: every line item is validated against the
current stock and gets the current product unit cost snapshotted onto
it. Reads only; performed against the transaction snapshot. -/
def validarEstoqueVenda (itens : List VendaItem) (db : DB) :
    Except Erro (List VendaItem) :=
  match itens with
  | [] => .ok []
  | item :: rest =>
    match lookupA db.produtos item.produtoId with
    | none => .error (.produtoNaoEncontrado item.produtoNome)
    | some p =>
      if p.quantidade < item.quantidade then
        .error (.estoqueInsuficiente item.produtoNome p.quantidade item.quantidade)
      else
        match validarEstoqueVenda rest db with
        | .error e => .error e
        | .ok cauda => .ok ({ item with custoUnitario := p.custoUnitario } :: cauda)

/-- vendas service registrarVenda: validates stock and snapshots costs,
writes the Venda document with status Paga for A_VISTA and Pendente
otherwise. The stock-update, contas-a-receber and bank-balance branches
of the source are elided comment placeholders, so no further write
happens. -/
def registrarVenda (v : VendaPayload) (db : DB) : Except Erro DB :=
  match validarEstoqueVenda v.produtos db with
  | .error e => .error e
  | .ok produtosParaSalvar =>
    let statusVenda : StatusVenda :=
      if v.condicaoPagamento = .A_VISTA then .Paga else .Pendente
    let vendaId := genId db.nextId
    .ok { db with
      vendas := (vendaId, ({ produtos := produtosParaSalvar,
                             status := statusVenda } : VendaDoc)) :: db.vendas
      nextId := db.nextId + 1 }

structure ProducaoItem where
  produtoId : String
  produtoNome : String
  quantidade : Money
deriving DecidableEq

/-- Item loop of registrarProducao: each iteration opens with
transaction.get of the product, issued after the producao write already
queued by the caller; the SDK rejects the read and the transaction
aborts, so the quantity update and movement write in the loop body are
dead code. With no items the loop body never runs. -/
def processarItensProducao (itens : List ProducaoItem) (lote : String) (db : DB) :
    Except Erro DB :=
  match itens with
  | [] => .ok db
  | _ :: _ => .error .readsAfterWrites

/-- producao.services.ts registrarProducao: writes the Producao document
first, then runs the item loop, whose post-write product read makes the
SDK throw whenever at least one produced item is present. -/
def registrarProducao (itens : List ProducaoItem) (lote : String) (db : DB) :
    Except Erro DB :=
  let producaoId := genId db.nextId
  let db0 := { db with
    producoes := (producaoId, ({ lote := lote, status := .Ativo } : ProducaoDoc))
      :: db.producoes
    nextId := db.nextId + 1 }
  processarItensProducao itens lote db0

/-- part_016 setVendaStatus: unconditional status write, accepting Paga,
Pendente and inativo alike. -/
def setVendaStatus (id : String) (status : StatusVenda) (db : DB) : DB :=
  { db with vendas := updateA db.vendas id (fun v => { v with status := status }) }

/-- despesas.services.ts setDespesaStatus: unconditional status write on
the despesa and on every contasAPagar document that references it. -/
def setDespesaStatus (id : String) (status : StatusConta) (db : DB) : DB :=
  let db1 := { db with
    despesas := updateA db.despesas id (fun d => { d with status := status }) }
  { db1 with
    contasAPagar := db1.contasAPagar.map fun p =>
      if p.2.despesaId = some id then (p.1, { p.2 with status := status }) else p }

/-- compras.services.ts setCompraStatus: unconditional ativo/inativo flag
write, no financial or stock reversal. -/
def setCompraStatus (id : String) (status : StatusDoc) (db : DB) : DB :=
  { db with compras := updateA db.compras id (fun c => { c with status := status }) }

inductive Evt where
  | read (coll : String)
  | write (coll : String)
deriving DecidableEq

def isRead : Evt → Bool
  | .read _ => true
  | .write _ => false

/-- Holds when no read is issued after the first write. -/
def readsBeforeWrites (l : List Evt) : Bool :=
  (l.dropWhile isRead).all fun e => !isRead e

/-- The order in which registrarCompra issues transaction reads and
writes on its success path, per the source control flow. -/
def compraTrace (c : CompraPayload) : List Evt :=
  .read "contasBancarias" :: .write "compras" ::
    ((if c.condicaoPagamento = .A_VISTA then
        [Evt.write "contasBancarias", Evt.write "contasAPagar"]
      else
        (List.range (c.numeroParcelas.getD 1)).map fun _ => Evt.write "contasAPagar") ++
     (c.itens.map fun _ =>
        [Evt.read "produtos", Evt.write "produtos",
         Evt.write "movimentacoesEstoque"]).flatten)

/-- The order in which registrarVenda issues transaction reads and
writes: all product reads up front, then the single venda write. -/
def vendaTrace (v : VendaPayload) : List Evt :=
  (v.produtos.map fun _ => Evt.read "produtos") ++ [Evt.write "vendas"]

/-- The order in which registrarProducao issues transaction reads and
writes: the producao write comes first, then per-item read and writes. -/
def producaoTrace (itens : List ProducaoItem) : List Evt :=
  .write "producoes" ::
    (itens.map fun _ =>
       [Evt.read "produtos", Evt.write "produtos",
        Evt.write "movimentacoesEstoque"]).flatten

/-- Every bank account in the database has a non-negative balance. -/
def saldosNaoNegativos (db : DB) : Prop :=
  ∀ k cb, lookupA db.contasBancarias k = some cb → 0 ≤ cb.saldoAtual

/-- Signed delta a stock movement contributes to one product. -/
def deltaMov (pid : String) (m : MovimentacaoEstoque) : Money :=
  if m.produtoId = pid then
    (match m.tipo with
     | .entrada => m.quantidade
     | .saida => -m.quantidade)
  else 0

def somaDeltas (pid : String) (l : List MovimentacaoEstoque) : Money :=
  (l.map (deltaMov pid)).sum

/-- Sequential application of stock movements, each through its own
transaction; a failed movement leaves the state untouched. -/
def aplicarMovimentacoes (movs : List MovimentacaoPayload) (db : DB) : DB :=
  match movs with
  | [] => db
  | m :: rest => aplicarMovimentacoes rest (run (registrarMovimentacao m) db)

def emptyDB : DB :=
  { contasBancarias := []
    produtos := []
    contasAPagar := []
    contasAReceber := []
    vendas := []
    compras := []
    despesas := []
    producoes := []
    movimentacoesBancarias := []
    movimentacoesEstoque := []
    nextId := 0 }

def d0 : SDate := { year := 2025, month := 1, day := 15 }

def dbC1 : DB := { emptyDB with
  contasBancarias := [("acc", { saldoAtual := 150 })]
  produtos := [("prod", { quantidade := 5, custoUnitario := 7 })] }

def compraC1 : CompraPayload :=
  { fornecedorId := "f1"
    notaFiscal := "NF1"
    valorTotal := 200
    condicaoPagamento := .A_VISTA
    numeroParcelas := none
    dataPrimeiroVencimento := none
    data := d0
    contaBancariaId := some "acc"
    itens := [{ produtoId := "prod", produtoNome := "Picanha",
                quantidade := 2, custoUnitario := 10 }] }

def dbC2 : DB := { emptyDB with
  contasBancarias := [("acc", { saldoAtual := 100 })]
  contasAPagar := [("p1",
    { compraId := some "c1"
      despesaId := none
      fornecedorId := "f1"
      notaFiscal := "NF2"
      valor := 40
      dataEmissao := d0
      dataVencimento := d0
      status := .Paga
      parcela := "1/1" })] }

def contaC2 : ContaAPagarRef :=
  { id := "p1", valor := 40, notaFiscal := "NF2", parcela := "1/1", despesaId := none }

def dbC2r : DB := { dbC2 with
  vendas := [("v1", { produtos := [], status := .Paga })]
  contasAReceber := [("r1", { vendaId := "v1", valor := 10, status := .Recebida })] }

def rcontaC2 : ContaAReceberRef := { id := "r1", vendaId := "v1", valor := 10 }

def dbC3 : DB := { emptyDB with
  contasBancarias := [("acc", { saldoAtual := 100 })]
  produtos := [("prod", { quantidade := 5, custoUnitario := 7 })] }

def vendaC3 : VendaPayload :=
  { produtos := [{ produtoId := "prod", produtoNome := "Picanha",
                   quantidade := 3, custoUnitario := 0 }]
    condicaoPagamento := .A_VISTA
    contaBancariaId := some "acc"
    data := d0
    dataVencimento := none }

def dbC4 : DB := { emptyDB with
  contasBancarias := [("acc", { saldoAtual := 1000 })]
  produtos := [("prod", { quantidade := 5, custoUnitario := 7 })] }

def compraC4 : CompraPayload :=
  { fornecedorId := "f1"
    notaFiscal := "NF4"
    valorTotal := 500
    condicaoPagamento := .A_VISTA
    numeroParcelas := none
    dataPrimeiroVencimento := none
    data := d0
    contaBancariaId := some "acc"
    itens := [{ produtoId := "prod", produtoNome := "Picanha",
                quantidade := 2, custoUnitario := 10 }] }

def dbC5 : DB := { emptyDB with
  produtos := [("prod", { quantidade := 5, custoUnitario := 7 })] }

def movC5 : MovimentacaoPayload :=
  { produtoId := "prod", produtoNome := "Picanha", quantidade := 2,
    tipo := .entrada, motivo := "ajuste" }

def movC5saida : MovimentacaoPayload :=
  { produtoId := "prod", produtoNome := "Picanha", quantidade := 9,
    tipo := .saida, motivo := "ajuste" }

def dbC6 : DB := { emptyDB with
  produtos := [("prod", { quantidade := 5, custoUnitario := 7 })] }

def compraC6 : CompraPayload :=
  { fornecedorId := "f1"
    notaFiscal := "NF6"
    valorTotal := 100
    condicaoPagamento := .A_VISTA
    numeroParcelas := none
    dataPrimeiroVencimento := none
    data := d0
    contaBancariaId := none
    itens := [] }

def itemC6 : VendaItem :=
  { produtoId := "prod", produtoNome := "Picanha", quantidade := 10, custoUnitario := 0 }

def vendaC6 : VendaPayload :=
  { produtos := [itemC6]
    condicaoPagamento := .A_VISTA
    contaBancariaId := some "acc"
    data := d0
    dataVencimento := none }

def dbC7 : DB := { emptyDB with
  contasBancarias := [("acc", { saldoAtual := 1000 })]
  produtos := [("prod", { quantidade := 5, custoUnitario := 7 })] }

def dataC7 : SDate := { year := 2025, month := 1, day := 15 }

def compraC7 : CompraPayload :=
  { fornecedorId := "f1"
    notaFiscal := "NF7"
    valorTotal := 900
    condicaoPagamento := .A_PRAZO
    numeroParcelas := some 3
    dataPrimeiroVencimento := some dataC7
    data := d0
    contaBancariaId := some "acc"
    itens := [{ produtoId := "prod", produtoNome := "Picanha",
                quantidade := 2, custoUnitario := 10 }] }

def compraC8 : CompraPayload :=
  { fornecedorId := "f1"
    notaFiscal := "NF8"
    valorTotal := 100
    condicaoPagamento := .A_VISTA
    numeroParcelas := none
    dataPrimeiroVencimento := none
    data := d0
    contaBancariaId := some "acc"
    itens := [{ produtoId := "prod", produtoNome := "Picanha",
                quantidade := 2, custoUnitario := 10 }] }

def dbC9 : DB := { emptyDB with
  vendas := [("v1", { produtos := [], status := .Paga })]
  despesas := [("de1", { status := .Paga })] }

def dbC10 : DB := { emptyDB with
  contasBancarias := [("acc", { saldoAtual := 100 })]
  vendas := [("v1", { produtos := [], status := .Pendente })]
  contasAReceber :=
    [("r1", { vendaId := "v1", valor := 300, status := .Pendente }),
     ("r2", { vendaId := "v1", valor := 300, status := .Pendente })] }

def contaC10 : ContaAReceberRef := { id := "r1", vendaId := "v1", valor := 300 }

theorem lookupA_updateA {α : Type} (l : List (String × α)) (k k2 : String) (f : α → α) :
    lookupA (updateA l k f) k2 =
      if k = k2 then (lookupA l k2).map f else lookupA l k2 := by
  induction l with
  | nil => by_cases h : k = k2 <;> simp [lookupA, updateA, h]
  | cons p t ih =>
    obtain ⟨k3, v⟩ := p
    by_cases h3 : k3 = k
    · subst h3
      by_cases hk : k3 = k2
      · subst hk
        simp [lookupA, updateA, ih]
      · simp [lookupA, updateA, hk, ih]
    · by_cases hk2 : k3 = k2
      · subst hk2
        simp [lookupA, updateA, h3, Ne.symm h3]
      · simp [lookupA, updateA, h3, hk2, ih]

theorem run_eq_of_error (op : DB → Except Erro DB) (db : DB) (e : Erro)
    (h : op db = .error e) : run op db = db := by
  simp [run, h]

theorem run_eq_of_ok (op : DB → Except Erro DB) (db db2 : DB)
    (h : op db = .ok db2) : run op db = db2 := by
  simp [run, h]

theorem somaDeltas_cons (pid : String) (m : MovimentacaoEstoque)
    (l : List MovimentacaoEstoque) :
    somaDeltas pid (m :: l) = deltaMov pid m + somaDeltas pid l := by
  simp [somaDeltas]

theorem registrarMovimentacao_invariante (m : MovimentacaoPayload) (db : DB)
    (pid : String) (p : Produto)
    (hp : lookupA db.produtos pid = some p) (hpos : 0 ≤ m.quantidade) :
    ∃ p2, lookupA (run (registrarMovimentacao m) db).produtos pid = some p2 ∧
      p2.quantidade -
          somaDeltas pid (run (registrarMovimentacao m) db).movimentacoesEstoque
        = p.quantidade - somaDeltas pid db.movimentacoesEstoque ∧
      (0 ≤ p.quantidade → 0 ≤ p2.quantidade) := by
  cases hm : lookupA db.produtos m.produtoId with
  | none =>
    have herr : registrarMovimentacao m db =
        .error (.produtoNaoEncontrado m.produtoNome) := by
      simp [registrarMovimentacao, hm]
    rw [run_eq_of_error _ _ _ herr]
    exact ⟨p, hp, rfl, fun h => h⟩
  | some q =>
    cases ht : m.tipo with
    | entrada =>
      have hok : run (registrarMovimentacao m) db =
          { db with
            produtos := updateA db.produtos m.produtoId
              (fun r => { r with quantidade := q.quantidade + m.quantidade })
            movimentacoesEstoque :=
              ({ produtoId := m.produtoId, produtoNome := m.produtoNome,
                 quantidade := m.quantidade, tipo := .entrada,
                 motivo := m.motivo } : MovimentacaoEstoque)
                :: db.movimentacoesEstoque } := by
        apply run_eq_of_ok
        simp [registrarMovimentacao, hm, ht]
      rw [hok]
      by_cases hpid : m.produtoId = pid
      · have hq : q = p := by
          rw [hpid] at hm
          rw [hm] at hp
          exact Option.some.inj hp
        subst hq
        refine ⟨{ q with quantidade := q.quantidade + m.quantidade }, ?_, ?_, ?_⟩
        · simp only []
          rw [lookupA_updateA, if_pos hpid, hp]
          rfl
        · simp [somaDeltas_cons, deltaMov, hpid]
          ring
        · intro h
          exact add_nonneg h hpos
      · refine ⟨p, ?_, ?_, fun h => h⟩
        · simp only []
          rw [lookupA_updateA, if_neg hpid]
          exact hp
        · simp [somaDeltas_cons, deltaMov, hpid]
    | saida =>
      by_cases hlt : q.quantidade < m.quantidade
      · have herr : registrarMovimentacao m db =
            .error (.estoqueInsuficiente m.produtoNome q.quantidade m.quantidade) := by
          simp [registrarMovimentacao, hm, ht, hlt]
        rw [run_eq_of_error _ _ _ herr]
        exact ⟨p, hp, rfl, fun h => h⟩
      · have hok : run (registrarMovimentacao m) db =
            { db with
              produtos := updateA db.produtos m.produtoId
                (fun r => { r with quantidade := q.quantidade - m.quantidade })
              movimentacoesEstoque :=
                ({ produtoId := m.produtoId, produtoNome := m.produtoNome,
                   quantidade := m.quantidade, tipo := .saida,
                   motivo := m.motivo } : MovimentacaoEstoque)
                  :: db.movimentacoesEstoque } := by
          apply run_eq_of_ok
          simp [registrarMovimentacao, hm, ht, hlt]
        rw [hok]
        by_cases hpid : m.produtoId = pid
        · have hq : q = p := by
            rw [hpid] at hm
            rw [hm] at hp
            exact Option.some.inj hp
          subst hq
          refine ⟨{ q with quantidade := q.quantidade - m.quantidade }, ?_, ?_, ?_⟩
          · simp only []
            rw [lookupA_updateA, if_pos hpid, hp]
            rfl
          · simp [somaDeltas_cons, deltaMov, hpid]
            ring
          · intro _
            exact sub_nonneg.mpr (le_of_not_lt hlt)
        · refine ⟨p, ?_, ?_, fun h => h⟩
          · simp only []
            rw [lookupA_updateA, if_neg hpid]
            exact hp
          · simp [somaDeltas_cons, deltaMov, hpid]

theorem aplicarMovimentacoes_invariante (movs : List MovimentacaoPayload) :
    ∀ (db : DB) (pid : String) (p : Produto),
      lookupA db.produtos pid = some p →
      (∀ m ∈ movs, 0 ≤ m.quantidade) →
      ∃ p2, lookupA (aplicarMovimentacoes movs db).produtos pid = some p2 ∧
        p2.quantidade -
            somaDeltas pid (aplicarMovimentacoes movs db).movimentacoesEstoque
          = p.quantidade - somaDeltas pid db.movimentacoesEstoque ∧
        (0 ≤ p.quantidade → 0 ≤ p2.quantidade) := by
  induction movs with
  | nil =>
    intro db pid p hp _
    exact ⟨p, hp, rfl, fun h => h⟩
  | cons m rest ih =>
    intro db pid p hp hpos
    obtain ⟨p1, hp1, heq1, hnn1⟩ :=
      registrarMovimentacao_invariante m db pid p hp (hpos m (by simp))
    obtain ⟨p2, hp2, heq2, hnn2⟩ :=
      ih (run (registrarMovimentacao m) db) pid p1 hp1
        (fun m2 hm2 => hpos m2 (by simp [hm2]))
    refine ⟨p2, ?_, ?_, fun h => hnn2 (hnn1 h)⟩
    · simpa [aplicarMovimentacoes] using hp2
    · calc p2.quantidade -
            somaDeltas pid (aplicarMovimentacoes (m :: rest) db).movimentacoesEstoque
          = p2.quantidade -
            somaDeltas pid
              (aplicarMovimentacoes rest (run (registrarMovimentacao m) db)).movimentacoesEstoque := by
            simp [aplicarMovimentacoes]
        _ = p1.quantidade -
            somaDeltas pid (run (registrarMovimentacao m) db).movimentacoesEstoque := heq2
        _ = p.quantidade - somaDeltas pid db.movimentacoesEstoque := heq1

theorem readsBeforeWrites_false_of_sandwich (l1 l2 l3 : List Evt) (w r : Evt)
    (hw : isRead w = false) (hr : isRead r = true) :
    readsBeforeWrites (l1 ++ w :: (l2 ++ r :: l3)) = false := by
  induction l1 with
  | nil =>
    simp [readsBeforeWrites, List.dropWhile, hw, List.all_append, hr]
  | cons a t ih =>
    cases ha : isRead a with
    | true =>
      simpa [readsBeforeWrites, List.dropWhile, ha] using ih
    | false =>
      simp [readsBeforeWrites, List.dropWhile, ha]
      intro _ _ _ hrf
      rw [hr] at hrf
      cases hrf

theorem readsBeforeWrites_reads_then_write (l : List Evt) (w : Evt)
    (hl : ∀ e ∈ l, isRead e = true) (hw : isRead w = false) :
    readsBeforeWrites (l ++ [w]) = true := by
  induction l with
  | nil => simp [readsBeforeWrites, List.dropWhile, hw]
  | cons a t ih =>
    have ha : isRead a = true := hl a (by simp)
    have ht : ∀ e ∈ t, isRead e = true := fun e he => hl e (by simp [he])
    simpa [readsBeforeWrites, List.dropWhile, ha] using ih ht

/-- C1 counterexample: a schema-valid cash purchase (A_VISTA, one line
item) of 200 from an account holding 150 does not fail with the
insufficient-funds error the claim names: the transaction aborts with
the SDK reads-after-writes error raised at the post-write product read
(regardless of the balance, as the sufficient-balance purchase compraC4
shows), with zero effect, the balance staying at 150. -/
theorem C1_counterexample :
    lookupA dbC1.contasBancarias "acc" = some { saldoAtual := 150 } ∧
    registrarCompra compraC1 dbC1 = .error .readsAfterWrites ∧
    Erro.readsAfterWrites ≠ Erro.saldoInsuficiente 150 ∧
    run (registrarCompra compraC1) dbC1 = dbC1 ∧
    registrarCompra compraC4 dbC4 = .error .readsAfterWrites := by
  exact ⟨rfl, rfl, by decide, rfl, rfl⟩

/-- C2 counterexample: paying a payable whose stored status is already
Paga succeeds again, debits the account a second time and appends a new
bank movement; there is no EntryAlreadySettled guard. -/
theorem C2_counterexample :
    lookupA dbC2.contasAPagar "p1" =
      some { compraId := some "c1", despesaId := none, fornecedorId := "f1",
             notaFiscal := "NF2", valor := 40, dataEmissao := d0,
             dataVencimento := d0, status := .Paga, parcela := "1/1" } ∧
    exceptOk (pagarConta contaC2 "acc" dbC2) = true ∧
    (run (pagarConta contaC2 "acc") dbC2).movimentacoesBancarias.length = 1 ∧
    lookupA (run (pagarConta contaC2 "acc") dbC2).contasBancarias "acc" =
      some { saldoAtual := 60 } := by
  norm_num [run, pagarConta, exceptOk, dbC2, contaC2, d0, emptyDB, lookupA,
    updateA]

/-- C3: at the failing input (sale of 3 units of a product with stock 5,
cash terms), registrarVenda validates, snapshots the unit cost and
writes the Venda with status Paga, but the stock stays at 5, no stock
movement is recorded, no receivable is created and the account is not
credited, because those branches of the source are elided comments. -/
theorem C3_venda_sem_efeitos :
    exceptOk (registrarVenda vendaC3 dbC3) = true ∧
    lookupA (run (registrarVenda vendaC3) dbC3).vendas (genId 0) =
      some { produtos := [{ produtoId := "prod", produtoNome := "Picanha",
                            quantidade := 3, custoUnitario := 7 }],
             status := .Paga } ∧
    lookupA (run (registrarVenda vendaC3) dbC3).produtos "prod" =
      some { quantidade := 5, custoUnitario := 7 } ∧
    (run (registrarVenda vendaC3) dbC3).movimentacoesEstoque = [] ∧
    (run (registrarVenda vendaC3) dbC3).contasAReceber = [] ∧
    lookupA (run (registrarVenda vendaC3) dbC3).contasBancarias "acc" =
      some { saldoAtual := 100 } := by
  norm_num [run, registrarVenda, validarEstoqueVenda, exceptOk, dbC3, vendaC3,
    emptyDB, lookupA, updateA, genId]

/-- C8 counterexample: registrarCompra issues the product read after the
compra and contas writes, so reads do not all precede writes. -/
theorem C8_counterexample :
    compraTrace compraC8 =
      [.read "contasBancarias", .write "compras", .write "contasBancarias",
       .write "contasAPagar", .read "produtos", .write "produtos",
       .write "movimentacoesEstoque"] ∧
    readsBeforeWrites (compraTrace compraC8) = false := by
  norm_num [compraTrace, compraC8, readsBeforeWrites, isRead, List.dropWhile]

/-- C9 counterexample: setVendaStatus accepts Pendente and writes it
unconditionally, moving a venda whose status is the terminal Paga back
to Pendente. -/
theorem C9_counterexample :
    lookupA dbC9.vendas "v1" = some { produtos := [], status := .Paga } ∧
    lookupA (setVendaStatus "v1" .Pendente dbC9).vendas "v1" =
      some { produtos := [], status := .Pendente } := by
  norm_num [setVendaStatus, dbC9, emptyDB, lookupA, updateA]

theorem saldos_run_pagarConta (db : DB) (conta : ContaAPagarRef) (cbId : String)
    (h0 : saldosNaoNegativos db) :
    saldosNaoNegativos (run (pagarConta conta cbId) db) := by
  cases hcb : lookupA db.contasBancarias cbId with
  | none =>
    have herr : pagarConta conta cbId db = .error .contaBancariaNaoEncontrada := by
      simp [pagarConta, hcb]
    rw [run_eq_of_error _ _ _ herr]
    exact h0
  | some cb =>
    by_cases hlt : cb.saldoAtual < conta.valor
    · have herr : pagarConta conta cbId db =
          .error (.saldoInsuficiente cb.saldoAtual) := by
        simp [pagarConta, hcb, hlt]
      rw [run_eq_of_error _ _ _ herr]
      exact h0
    · cases hd : conta.despesaId with
      | none =>
        have hok : run (pagarConta conta cbId) db =
            { db with
              contasAPagar := updateA db.contasAPagar conta.id
                (fun c => { c with status := .Paga })
              contasBancarias := updateA db.contasBancarias cbId
                (fun c => { c with saldoAtual := cb.saldoAtual - conta.valor })
              movimentacoesBancarias :=
                ({ contaId := cbId, valor := conta.valor, tipo := .debito,
                   motivo := "Pagamento Ref: " ++
                     (if conta.notaFiscal = "" then "Despesa" else conta.notaFiscal) ++
                     " - Parcela: " ++ conta.parcela,
                   saldoAnterior := cb.saldoAtual,
                   saldoNovo := cb.saldoAtual - conta.valor } : MovimentacaoBancaria)
                  :: db.movimentacoesBancarias } := by
          apply run_eq_of_ok
          simp [pagarConta, hcb, hlt, hd]
        rw [hok]
        intro k cb2 hk
        simp only [lookupA_updateA] at hk
        by_cases hkc : cbId = k
        · rw [if_pos hkc] at hk
          subst hkc
          rw [hcb, Option.map_some'] at hk
          cases hk
          exact sub_nonneg.mpr (le_of_not_lt hlt)
        · rw [if_neg hkc] at hk
          exact h0 k cb2 hk
      | some d =>
        have hok : run (pagarConta conta cbId) db =
            { db with
              contasAPagar := updateA db.contasAPagar conta.id
                (fun c => { c with status := .Paga })
              despesas := updateA db.despesas d (fun e => { e with status := .Paga })
              contasBancarias := updateA db.contasBancarias cbId
                (fun c => { c with saldoAtual := cb.saldoAtual - conta.valor })
              movimentacoesBancarias :=
                ({ contaId := cbId, valor := conta.valor, tipo := .debito,
                   motivo := "Pagamento Ref: " ++
                     (if conta.notaFiscal = "" then "Despesa" else conta.notaFiscal) ++
                     " - Parcela: " ++ conta.parcela,
                   saldoAnterior := cb.saldoAtual,
                   saldoNovo := cb.saldoAtual - conta.valor } : MovimentacaoBancaria)
                  :: db.movimentacoesBancarias } := by
          apply run_eq_of_ok
          simp [pagarConta, hcb, hlt, hd]
        rw [hok]
        intro k cb2 hk
        simp only [lookupA_updateA] at hk
        by_cases hkc : cbId = k
        · rw [if_pos hkc] at hk
          subst hkc
          rw [hcb, Option.map_some'] at hk
          cases hk
          exact sub_nonneg.mpr (le_of_not_lt hlt)
        · rw [if_neg hkc] at hk
          exact h0 k cb2 hk

theorem saldos_run_movBancaria (db : DB) (cbId : String) (valor : Money)
    (tipo : TipoMovBancaria) (motivo : String)
    (h0 : saldosNaoNegativos db) (hv : 0 ≤ valor) :
    saldosNaoNegativos (run (registrarMovimentacaoBancaria cbId valor tipo motivo) db) := by
  cases hcb : lookupA db.contasBancarias cbId with
  | none =>
    have herr : registrarMovimentacaoBancaria cbId valor tipo motivo db =
        .error .contaBancariaNaoEncontrada := by
      simp [registrarMovimentacaoBancaria, hcb]
    rw [run_eq_of_error _ _ _ herr]
    exact h0
  | some cb =>
    cases tipo with
    | credito =>
      have hok : run (registrarMovimentacaoBancaria cbId valor .credito motivo) db =
          { db with
            contasBancarias := updateA db.contasBancarias cbId
              (fun c => { c with saldoAtual := cb.saldoAtual + valor })
            movimentacoesBancarias :=
              ({ contaId := cbId, valor := valor, tipo := .credito,
                 motivo := motivo, saldoAnterior := cb.saldoAtual,
                 saldoNovo := cb.saldoAtual + valor } : MovimentacaoBancaria)
                :: db.movimentacoesBancarias } := by
        apply run_eq_of_ok
        simp [registrarMovimentacaoBancaria, hcb]
      rw [hok]
      intro k cb2 hk
      simp only [lookupA_updateA] at hk
      by_cases hkc : cbId = k
      · rw [if_pos hkc] at hk
        subst hkc
        rw [hcb, Option.map_some'] at hk
        cases hk
        exact add_nonneg (h0 _ _ hcb) hv
      · rw [if_neg hkc] at hk
        exact h0 k cb2 hk
    | debito =>
      by_cases hlt : cb.saldoAtual < valor
      · have herr : registrarMovimentacaoBancaria cbId valor .debito motivo db =
            .error (.saldoInsuficiente cb.saldoAtual) := by
          simp [registrarMovimentacaoBancaria, hcb, hlt]
        rw [run_eq_of_error _ _ _ herr]
        exact h0
      · have hok : run (registrarMovimentacaoBancaria cbId valor .debito motivo) db =
            { db with
              contasBancarias := updateA db.contasBancarias cbId
                (fun c => { c with saldoAtual := cb.saldoAtual - valor })
              movimentacoesBancarias :=
                ({ contaId := cbId, valor := valor, tipo := .debito,
                   motivo := motivo, saldoAnterior := cb.saldoAtual,
                   saldoNovo := cb.saldoAtual - valor } : MovimentacaoBancaria)
                  :: db.movimentacoesBancarias } := by
          apply run_eq_of_ok
          simp [registrarMovimentacaoBancaria, hcb, hlt]
        rw [hok]
        intro k cb2 hk
        simp only [lookupA_updateA] at hk
        by_cases hkc : cbId = k
        · rw [if_pos hkc] at hk
          subst hkc
          rw [hcb, Option.map_some'] at hk
          cases hk
          exact sub_nonneg.mpr (le_of_not_lt hlt)
        · rw [if_neg hkc] at hk
          exact h0 k cb2 hk

/-- With at least one line item, registrarCompra never succeeds: either
a validation throw before any write, or the SDK reads-after-writes
throw at the first post-write product read; the transaction always
aborts with zero effect. -/
theorem registrarCompra_falha_com_itens (db : DB) (c : CompraPayload)
    (hc : c.itens ≠ []) :
    exceptOk (registrarCompra c db) = false ∧ run (registrarCompra c) db = db := by
  obtain ⟨i, is, hcc⟩ := List.exists_cons_of_ne_nil hc
  cases hid : c.contaBancariaId with
  | none =>
    have he : registrarCompra c db = .error .contaBancariaObrigatoria := by
      simp [registrarCompra, hid]
    exact ⟨by simp [exceptOk, he], run_eq_of_error _ _ _ he⟩
  | some cbId =>
    cases hl : lookupA db.contasBancarias cbId with
    | none =>
      have he : registrarCompra c db = .error .contaBancariaNaoEncontrada := by
        simp [registrarCompra, hid, hl]
      exact ⟨by simp [exceptOk, he], run_eq_of_error _ _ _ he⟩
    | some cb =>
      by_cases hcond : c.condicaoPagamento = .A_VISTA
      · have he : registrarCompra c db = .error .readsAfterWrites := by
          simp [registrarCompra, hid, hl, hcond, hcc, processarItensCompra]
        exact ⟨by simp [exceptOk, he], run_eq_of_error _ _ _ he⟩
      · cases hd : c.dataPrimeiroVencimento with
        | none =>
          have he : registrarCompra c db = .error .dataPrimeiroVencimentoObrigatoria := by
            simp [registrarCompra, hid, hl, hcond, hd]
          exact ⟨by simp [exceptOk, he], run_eq_of_error _ _ _ he⟩
        | some d1 =>
          have he : registrarCompra c db = .error .readsAfterWrites := by
            simp [registrarCompra, hid, hl, hcond, hd, hcc, processarItensCompra]
          exact ⟨by simp [exceptOk, he], run_eq_of_error _ _ _ he⟩

/-- With at least one produced item, registrarProducao never succeeds:
the product read follows the producao write and the SDK throws, so the
transaction always aborts with zero effect. -/
theorem registrarProducao_falha_com_itens (db : DB) (itens : List ProducaoItem)
    (lote : String) (hi : itens ≠ []) :
    exceptOk (registrarProducao itens lote db) = false ∧
    run (registrarProducao itens lote) db = db := by
  obtain ⟨i, is, hii⟩ := List.exists_cons_of_ne_nil hi
  have he : registrarProducao itens lote db = .error .readsAfterWrites := by
    simp [registrarProducao, hii, processarItensProducao]
  exact ⟨by simp [exceptOk, he], run_eq_of_error _ _ _ he⟩

/-- C1 (amended): the settlement debit pagarConta and the direct debit
registrarMovimentacaoBancaria reject an amount larger than the balance
with a saldo-insuficiente error carrying the current balance and abort
with zero effect, and neither operation can drive any balance negative
(credits assumed non-negative per the validated form). The amendment,
forced by the counterexample, concerns the third debit path: the
A_VISTA debit of registrarCompra carries no insufficient-funds guard,
but it can never commit, because for every payload with at least one
line item (compraSchema requires one) the transaction aborts at the
first product read issued after the queued writes — regardless of the
balance — with zero effect. So registrarCompra never produces the
insufficient-funds error, and no balance goes negative. -/
theorem C1_amended (db : DB) (conta : ContaAPagarRef) (cbId : String)
    (cb : ContaBancaria) (valor : Money) (motivo : String)
    (hcb : lookupA db.contasBancarias cbId = some cb)
    (h1 : cb.saldoAtual < conta.valor) (h2 : cb.saldoAtual < valor) :
    (pagarConta conta cbId db = .error (.saldoInsuficiente cb.saldoAtual) ∧
      run (pagarConta conta cbId) db = db) ∧
    (registrarMovimentacaoBancaria cbId valor .debito motivo db =
        .error (.saldoInsuficiente cb.saldoAtual) ∧
      run (registrarMovimentacaoBancaria cbId valor .debito motivo) db = db) ∧
    (∀ (conta2 : ContaAPagarRef) (cbId2 : String), saldosNaoNegativos db →
      saldosNaoNegativos (run (pagarConta conta2 cbId2) db)) ∧
    (∀ (cbId2 : String) (v2 : Money) (t2 : TipoMovBancaria) (m2 : String),
      saldosNaoNegativos db → 0 ≤ v2 →
      saldosNaoNegativos (run (registrarMovimentacaoBancaria cbId2 v2 t2 m2) db)) ∧
    (∀ c : CompraPayload, c.itens ≠ [] →
      exceptOk (registrarCompra c db) = false ∧
      run (registrarCompra c) db = db ∧
      (saldosNaoNegativos db → saldosNaoNegativos (run (registrarCompra c) db))) := by
  have he1 : pagarConta conta cbId db = .error (.saldoInsuficiente cb.saldoAtual) := by
    simp [pagarConta, hcb, h1]
  have he2 : registrarMovimentacaoBancaria cbId valor .debito motivo db =
      .error (.saldoInsuficiente cb.saldoAtual) := by
    simp [registrarMovimentacaoBancaria, hcb, h2]
  refine ⟨⟨he1, run_eq_of_error _ _ _ he1⟩, ⟨he2, run_eq_of_error _ _ _ he2⟩, ?_, ?_, ?_⟩
  · intro conta2 cbId2 h0
    exact saldos_run_pagarConta db conta2 cbId2 h0
  · intro cbId2 v2 t2 m2 h0 hv
    exact saldos_run_movBancaria db cbId2 v2 t2 m2 h0 hv
  · intro c hc
    obtain ⟨hfail, hrun⟩ := registrarCompra_falha_com_itens db c hc
    refine ⟨hfail, hrun, fun h0 => ?_⟩
    rw [hrun]
    exact h0

def contaC1w : ContaAPagarRef :=
  { id := "p1", valor := 200, notaFiscal := "NF1", parcela := "1/1", despesaId := none }

/-- C1 witness: concrete instance of the amended theorem at balance 150
and debit 200. -/
theorem C1_amended_witness :
    pagarConta contaC1w "acc" dbC1 = .error (.saldoInsuficiente 150) ∧
    run (pagarConta contaC1w "acc") dbC1 = dbC1 := by
  have h := C1_amended dbC1 contaC1w "acc" { saldoAtual := 150 } 200 "m"
    (by norm_num [dbC1, emptyDB, lookupA]) (by norm_num [contaC1w]) (by norm_num)
  exact ⟨h.1.1, h.1.2⟩

/-- C2 (amended): neither pagarConta nor receberPagamento consults the
current status of the entry being settled: even when the stored payable
is already Paga (respectively the receivable already Recebida), the
operation succeeds again, applies the debit (given sufficient balance)
or credit a second time and appends another bank movement, instead of
failing with an already-settled error. -/
theorem C2_amended (db : DB) (conta : ContaAPagarRef) (rconta : ContaAReceberRef)
    (cbId : String) (cb : ContaBancaria)
    (stored : ContaAPagarDoc) (rstored : ContaAReceberDoc)
    (hcb : lookupA db.contasBancarias cbId = some cb)
    (hstored : lookupA db.contasAPagar conta.id = some stored)
    (hterm : stored.status = .Paga)
    (hsuf : conta.valor ≤ cb.saldoAtual)
    (hr : lookupA db.contasAReceber rconta.id = some rstored)
    (hrterm : rstored.status = .Recebida) :
    (∃ db2, pagarConta conta cbId db = .ok db2 ∧
      db2.movimentacoesBancarias.length = db.movimentacoesBancarias.length + 1 ∧
      lookupA db2.contasBancarias cbId =
        some { saldoAtual := cb.saldoAtual - conta.valor } ∧
      lookupA db2.contasAPagar conta.id = some { stored with status := .Paga }) ∧
    (∃ db3, receberPagamento rconta cbId db = .ok db3 ∧
      db3.movimentacoesBancarias.length = db.movimentacoesBancarias.length + 1 ∧
      lookupA db3.contasBancarias cbId =
        some { saldoAtual := cb.saldoAtual + rconta.valor } ∧
      lookupA db3.contasAReceber rconta.id =
        some { rstored with status := .Recebida }) := by
  have hnlt : ¬ cb.saldoAtual < conta.valor := not_lt.mpr hsuf
  constructor
  · cases hd : conta.despesaId with
    | none =>
      refine ⟨_, by simp [pagarConta, hcb, hnlt, hd]; rfl, ?_, ?_, ?_⟩
      · simp
      · rw [lookupA_updateA, if_pos rfl, hcb]
        rfl
      · rw [lookupA_updateA, if_pos rfl, hstored]
        rfl
    | some d =>
      refine ⟨_, by simp [pagarConta, hcb, hnlt, hd]; rfl, ?_, ?_, ?_⟩
      · simp
      · rw [lookupA_updateA, if_pos rfl, hcb]
        rfl
      · rw [lookupA_updateA, if_pos rfl, hstored]
        rfl
  · refine ⟨_, by simp [receberPagamento, hcb]; rfl, ?_, ?_, ?_⟩
    · simp
    · rw [lookupA_updateA, if_pos rfl, hcb]
      rfl
    · rw [lookupA_updateA, if_pos rfl, hr]
      rfl

/-- C2 witness: concrete instance of the amended theorem on a payable
already Paga and a receivable already Recebida. -/
theorem C2_amended_witness :
    (∃ db2, pagarConta contaC2 "acc" dbC2r = .ok db2 ∧
      db2.movimentacoesBancarias.length = dbC2r.movimentacoesBancarias.length + 1 ∧
      lookupA db2.contasBancarias "acc" = some { saldoAtual := 100 - 40 } ∧
      lookupA db2.contasAPagar contaC2.id =
        some { compraId := some "c1", despesaId := none, fornecedorId := "f1",
               notaFiscal := "NF2", valor := 40, dataEmissao := d0,
               dataVencimento := d0, status := .Paga, parcela := "1/1" }) ∧
    (∃ db3, receberPagamento rcontaC2 "acc" dbC2r = .ok db3 ∧
      db3.movimentacoesBancarias.length = dbC2r.movimentacoesBancarias.length + 1 ∧
      lookupA db3.contasBancarias "acc" = some { saldoAtual := 100 + 10 } ∧
      lookupA db3.contasAReceber rcontaC2.id =
        some { vendaId := "v1", valor := 10, status := .Recebida }) := by
  exact C2_amended dbC2r contaC2 rcontaC2 "acc" { saldoAtual := 100 }
    { compraId := some "c1", despesaId := none, fornecedorId := "f1",
      notaFiscal := "NF2", valor := 40, dataEmissao := d0,
      dataVencimento := d0, status := .Paga, parcela := "1/1" }
    { vendaId := "v1", valor := 10, status := .Recebida }
    (by norm_num [dbC2r, dbC2, emptyDB, lookupA])
    (by norm_num [dbC2r, dbC2, emptyDB, contaC2, lookupA])
    rfl (by norm_num [contaC2])
    (by norm_num [dbC2r, dbC2, emptyDB, rcontaC2, lookupA])
    rfl

/-- C10: receberPagamento on a single receivable installment
unconditionally marks the receivable Recebida and the originating venda
Paga, credits the account and appends one movement, for any current
status of the receivable and leaving every other receivable (including
still-pending installments of the same sale) untouched. -/
theorem C10_receber_incondicional (db : DB) (rc : ContaAReceberRef) (cbId : String)
    (cb : ContaBancaria) (r : ContaAReceberDoc) (v : VendaDoc)
    (hcb : lookupA db.contasBancarias cbId = some cb)
    (hr : lookupA db.contasAReceber rc.id = some r)
    (hv : lookupA db.vendas rc.vendaId = some v) :
    ∃ db2, receberPagamento rc cbId db = .ok db2 ∧
      lookupA db2.contasAReceber rc.id = some { r with status := .Recebida } ∧
      lookupA db2.vendas rc.vendaId = some { v with status := .Paga } ∧
      lookupA db2.contasBancarias cbId =
        some { saldoAtual := cb.saldoAtual + rc.valor } ∧
      db2.movimentacoesBancarias.length = db.movimentacoesBancarias.length + 1 ∧
      (∀ k, k ≠ rc.id → lookupA db2.contasAReceber k = lookupA db.contasAReceber k) := by
  refine ⟨_, by simp [receberPagamento, hcb]; rfl, ?_, ?_, ?_, ?_, ?_⟩
  · rw [lookupA_updateA, if_pos rfl, hr]
    rfl
  · rw [lookupA_updateA, if_pos rfl, hv]
    rfl
  · rw [lookupA_updateA, if_pos rfl, hcb]
    rfl
  · simp
  · intro k hk
    rw [lookupA_updateA, if_neg (fun he => hk he.symm)]

/-- C10 witness: receiving installment r1 of sale v1 while installment
r2 is still Pendente. -/
theorem C10_receber_incondicional_witness :
    ∃ db2, receberPagamento contaC10 "acc" dbC10 = .ok db2 ∧
      lookupA db2.contasAReceber "r1" =
        some { vendaId := "v1", valor := 300, status := .Recebida } ∧
      lookupA db2.vendas "v1" = some { produtos := [], status := .Paga } ∧
      lookupA db2.contasBancarias "acc" = some { saldoAtual := 100 + 300 } ∧
      lookupA db2.contasAReceber "r2" =
        some { vendaId := "v1", valor := 300, status := .Pendente } := by
  obtain ⟨db2, h1, h2, h3, h4, h5, h6⟩ := C10_receber_incondicional dbC10 contaC10 "acc"
    { saldoAtual := 100 } { vendaId := "v1", valor := 300, status := .Pendente }
    { produtos := [], status := .Pendente }
    (by norm_num [dbC10, emptyDB, lookupA])
    (by norm_num [dbC10, emptyDB, contaC10, lookupA])
    (by norm_num [dbC10, emptyDB, contaC10, lookupA])
  refine ⟨db2, h1, h2, h3, h4, ?_⟩
  rw [h6 "r2" (by decide)]
  norm_num [dbC10, emptyDB, lookupA]

/-- C9 (amended): transitions to a terminal status happen only through
explicit actions, but they are not one-way: the exported setVendaStatus
and setDespesaStatus accept Pendente and write it unconditionally, so a
venda or despesa whose status is the terminal Paga is moved back to
Pendente by them. -/
theorem C9_amended (db : DB) (idv idd : String) (v : VendaDoc) (d : DespesaDoc)
    (hv : lookupA db.vendas idv = some v) (hvst : v.status = .Paga)
    (hd2 : lookupA db.despesas idd = some d) (hdst : d.status = .Paga) :
    lookupA (setVendaStatus idv .Pendente db).vendas idv =
      some { v with status := .Pendente } ∧
    lookupA (setDespesaStatus idd .Pendente db).despesas idd =
      some { d with status := .Pendente } := by
  constructor
  · show lookupA (updateA db.vendas idv _) idv = _
    rw [lookupA_updateA, if_pos rfl, hv]
    rfl
  · show lookupA (updateA db.despesas idd _) idd = _
    rw [lookupA_updateA, if_pos rfl, hd2]
    rfl

/-- C9 witness: concrete Paga venda and despesa pushed back to Pendente. -/
theorem C9_amended_witness :
    lookupA (setVendaStatus "v1" .Pendente dbC9).vendas "v1" =
      some { produtos := [], status := .Pendente } ∧
    lookupA (setDespesaStatus "de1" .Pendente dbC9).despesas "de1" =
      some { status := .Pendente } := by
  exact C9_amended dbC9 "v1" "de1" { produtos := [], status := .Paga }
    { status := .Paga }
    (by norm_num [dbC9, emptyDB, lookupA]) rfl
    (by norm_num [dbC9, emptyDB, lookupA]) rfl

/-- C4: every write that commits a change to a cached quantidade or
saldoAtual is paired with one movement record appended in the same
transaction: registrarMovimentacaoBancaria, pagarConta and
receberPagamento each append exactly one bank movement snapshotting the
balance before and after; registrarMovimentacao appends exactly one
stock movement matching the quantity change; the item loops of
registrarCompra and registrarProducao (the one place with an unpaired
queued write, the A_VISTA debit) never commit, because with at least
one line item — which compraSchema requires — the transaction aborts at
the post-write product read; and a committed registrarVenda changes no
quantity, balance or movement at all. -/
theorem C4_movimentos_pareados (db : DB) :
    (∀ (cbId : String) (valor : Money) (tipo : TipoMovBancaria) (motivo : String)
       (cb : ContaBancaria) (db2 : DB),
      lookupA db.contasBancarias cbId = some cb →
      registrarMovimentacaoBancaria cbId valor tipo motivo db = .ok db2 →
      ∃ mov, db2.movimentacoesBancarias = mov :: db.movimentacoesBancarias ∧
        mov.saldoAnterior = cb.saldoAtual ∧
        lookupA db2.contasBancarias cbId = some { saldoAtual := mov.saldoNovo }) ∧
    (∀ (conta : ContaAPagarRef) (cbId : String) (cb : ContaBancaria) (db2 : DB),
      lookupA db.contasBancarias cbId = some cb →
      pagarConta conta cbId db = .ok db2 →
      ∃ mov, db2.movimentacoesBancarias = mov :: db.movimentacoesBancarias ∧
        mov.saldoAnterior = cb.saldoAtual ∧
        lookupA db2.contasBancarias cbId = some { saldoAtual := mov.saldoNovo }) ∧
    (∀ (rc : ContaAReceberRef) (cbId : String) (cb : ContaBancaria) (db2 : DB),
      lookupA db.contasBancarias cbId = some cb →
      receberPagamento rc cbId db = .ok db2 →
      ∃ mov, db2.movimentacoesBancarias = mov :: db.movimentacoesBancarias ∧
        mov.saldoAnterior = cb.saldoAtual ∧
        lookupA db2.contasBancarias cbId = some { saldoAtual := mov.saldoNovo }) ∧
    (∀ (m : MovimentacaoPayload) (p : Produto) (db2 : DB),
      lookupA db.produtos m.produtoId = some p →
      registrarMovimentacao m db = .ok db2 →
      db2.movimentacoesEstoque =
        ({ produtoId := m.produtoId, produtoNome := m.produtoNome,
           quantidade := m.quantidade, tipo := m.tipo,
           motivo := m.motivo } : MovimentacaoEstoque)
          :: db.movimentacoesEstoque ∧
      lookupA db2.produtos m.produtoId =
        some { p with quantidade :=
          match m.tipo with
          | .entrada => p.quantidade + m.quantidade
          | .saida => p.quantidade - m.quantidade }) ∧
    (∀ c : CompraPayload, c.itens ≠ [] →
      exceptOk (registrarCompra c db) = false ∧
      run (registrarCompra c) db = db) ∧
    (∀ (itens : List ProducaoItem) (lote : String), itens ≠ [] →
      exceptOk (registrarProducao itens lote db) = false ∧
      run (registrarProducao itens lote) db = db) ∧
    (∀ (v : VendaPayload) (db2 : DB),
      registrarVenda v db = .ok db2 →
      db2.produtos = db.produtos ∧
      db2.contasBancarias = db.contasBancarias ∧
      db2.movimentacoesBancarias = db.movimentacoesBancarias ∧
      db2.movimentacoesEstoque = db.movimentacoesEstoque) := by
  refine ⟨?_, ?_, ?_, ?_, ?_, ?_, ?_⟩
  · intro cbId valor tipo motivo cb db2 hcb hok
    simp only [registrarMovimentacaoBancaria, hcb] at hok
    by_cases hg : tipo = .debito ∧ cb.saldoAtual < valor
    · rw [if_pos hg] at hok
      cases hok
    · rw [if_neg hg] at hok
      cases hok
      refine ⟨_, rfl, rfl, ?_⟩
      rw [lookupA_updateA, if_pos rfl, hcb]
      rfl
  · intro conta cbId cb db2 hcb hok
    simp only [pagarConta, hcb] at hok
    by_cases hg : cb.saldoAtual < conta.valor
    · rw [if_pos hg] at hok
      cases hok
    · rw [if_neg hg] at hok
      cases hd : conta.despesaId with
      | none =>
        rw [hd] at hok
        simp only [] at hok
        cases hok
        refine ⟨_, rfl, rfl, ?_⟩
        rw [lookupA_updateA, if_pos rfl, hcb]
        rfl
      | some d =>
        rw [hd] at hok
        simp only [] at hok
        cases hok
        refine ⟨_, rfl, rfl, ?_⟩
        rw [lookupA_updateA, if_pos rfl, hcb]
        rfl
  · intro rc cbId cb db2 hcb hok
    simp only [receberPagamento, hcb] at hok
    cases hok
    refine ⟨_, rfl, rfl, ?_⟩
    rw [lookupA_updateA, if_pos rfl, hcb]
    rfl
  · intro m p db2 hp hok
    simp only [registrarMovimentacao, hp] at hok
    cases ht : m.tipo with
    | entrada =>
      rw [ht] at hok
      simp only [] at hok
      cases hok
      refine ⟨rfl, ?_⟩
      rw [lookupA_updateA, if_pos rfl, hp]
      rfl
    | saida =>
      rw [ht] at hok
      simp only [] at hok
      by_cases hg : p.quantidade < m.quantidade
      · rw [if_pos hg] at hok
        cases hok
      · rw [if_neg hg] at hok
        cases hok
        refine ⟨rfl, ?_⟩
        rw [lookupA_updateA, if_pos rfl, hp]
        rfl
  · intro c hc
    exact registrarCompra_falha_com_itens db c hc
  · intro itens lote hi
    exact registrarProducao_falha_com_itens db itens lote hi
  · intro v db2 hok
    simp only [registrarVenda] at hok
    cases hv : validarEstoqueVenda v.produtos db with
    | error e =>
      rw [hv] at hok
      cases hok
    | ok lst =>
      rw [hv] at hok
      simp only [] at hok
      cases hok
      exact ⟨rfl, rfl, rfl, rfl⟩

/-- C4 witness: one successful stock movement pairs the quantity update
(5 becomes 5 + 2) with exactly one appended stock movement record. -/
theorem C4_movimentos_pareados_witness :
    ∃ db2, registrarMovimentacao movC5 dbC5 = .ok db2 ∧
      db2.movimentacoesEstoque =
        ({ produtoId := "prod", produtoNome := "Picanha", quantidade := 2,
           tipo := .entrada, motivo := "ajuste" } : MovimentacaoEstoque)
          :: dbC5.movimentacoesEstoque ∧
      lookupA db2.produtos "prod" =
        some { quantidade := 5 + 2, custoUnitario := 7 } := by
  obtain ⟨db2, hok⟩ : ∃ db2, registrarMovimentacao movC5 dbC5 = .ok db2 := ⟨_, rfl⟩
  have h := (C4_movimentos_pareados dbC5).2.2.2.1 movC5
    { quantidade := 5, custoUnitario := 7 } db2 rfl hok
  exact ⟨db2, hok, h.1, h.2⟩

/-- C6: failed validation has zero effect: a purchase with no funding
account, or whose funding account does not exist, fails and changes
nothing; a sale whose single line item asks for more than the current
stock fails with the insufficient-stock error naming the product and
changes nothing (no Venda document, stock untouched). -/
theorem C6_atomicidade (db : DB) (c : CompraPayload) (v : VendaPayload)
    (item : VendaItem) (p : Produto) :
    (c.contaBancariaId = none →
      registrarCompra c db = .error .contaBancariaObrigatoria ∧
      run (registrarCompra c) db = db) ∧
    (∀ cbId, c.contaBancariaId = some cbId →
      lookupA db.contasBancarias cbId = none →
      registrarCompra c db = .error .contaBancariaNaoEncontrada ∧
      run (registrarCompra c) db = db) ∧
    (v.produtos = [item] →
      lookupA db.produtos item.produtoId = some p →
      p.quantidade < item.quantidade →
      registrarVenda v db =
        .error (.estoqueInsuficiente item.produtoNome p.quantidade item.quantidade) ∧
      run (registrarVenda v) db = db) := by
  refine ⟨?_, ?_, ?_⟩
  · intro h
    have he : registrarCompra c db = .error .contaBancariaObrigatoria := by
      simp [registrarCompra, h]
    exact ⟨he, run_eq_of_error _ _ _ he⟩
  · intro cbId hc hl
    have he : registrarCompra c db = .error .contaBancariaNaoEncontrada := by
      simp [registrarCompra, hc, hl]
    exact ⟨he, run_eq_of_error _ _ _ he⟩
  · intro hprod hp hlt
    have he : registrarVenda v db =
        .error (.estoqueInsuficiente item.produtoNome p.quantidade item.quantidade) := by
      simp [registrarVenda, validarEstoqueVenda, hprod, hp, hlt]
    exact ⟨he, run_eq_of_error _ _ _ he⟩

/-- C6 witness: a purchase without funding account and the spec scenario
sale of 10 units against stock 5, both rejected with zero effect. -/
theorem C6_atomicidade_witness :
    (registrarCompra compraC6 dbC6 = .error .contaBancariaObrigatoria ∧
      run (registrarCompra compraC6) dbC6 = dbC6) ∧
    (registrarVenda vendaC6 dbC6 =
        .error (.estoqueInsuficiente "Picanha" 5 10) ∧
      run (registrarVenda vendaC6) dbC6 = dbC6) := by
  have h := C6_atomicidade dbC6 compraC6 vendaC6 itemC6
    { quantidade := 5, custoUnitario := 7 }
  refine ⟨h.1 rfl, ?_⟩
  exact h.2.2 rfl (by norm_num [dbC6, emptyDB, itemC6, lookupA])
    (by norm_num [itemC6])

/-- C7: at the claim scenario — total 900, A_PRAZO, 3 installments,
first due date 2025-01-15, one line item as compraSchema requires —
registrarCompra queues exactly the three claimed installments: amount
900 divided by 3 (equal to 300) each, due dates advancing one month
from the first due date, labels 1/3, 2/3 and 3/3, all Pendente. But the
transaction then issues a product read after those queued writes, which
the web SDK rejects, so it aborts with zero effect and no contasAPagar
entry is ever created. -/
theorem C7_parcelas_abortadas :
    registrarCompra compraC7 dbC7 = .error .readsAfterWrites ∧
    run (registrarCompra compraC7) dbC7 = dbC7 ∧
    (run (registrarCompra compraC7) dbC7).contasAPagar = [] ∧
    mkParcelas (genId dbC7.nextId) compraC7 3 dataC7 (dbC7.nextId + 1) =
      [(genId 1,
        { compraId := some (genId 0), despesaId := none, fornecedorId := "f1",
          notaFiscal := "NF7", valor := (900 : Money) / ((3 : Nat) : Money),
          dataEmissao := d0,
          dataVencimento := { year := 2025, month := 1, day := 15 },
          status := .Pendente, parcela := "1/3" }),
       (genId 2,
        { compraId := some (genId 0), despesaId := none, fornecedorId := "f1",
          notaFiscal := "NF7", valor := (900 : Money) / ((3 : Nat) : Money),
          dataEmissao := d0,
          dataVencimento := { year := 2025, month := 2, day := 15 },
          status := .Pendente, parcela := "2/3" }),
       (genId 3,
        { compraId := some (genId 0), despesaId := none, fornecedorId := "f1",
          notaFiscal := "NF7", valor := (900 : Money) / ((3 : Nat) : Money),
          dataEmissao := d0,
          dataVencimento := { year := 2025, month := 3, day := 15 },
          status := .Pendente, parcela := "3/3" })] ∧
    (900 : Money) / ((3 : Nat) : Money) = 300 := by
  exact ⟨rfl, rfl, rfl, rfl, by norm_num⟩

/-- C8 (amended): registrarVenda issues every validation read before its
single write; but registrarCompra and registrarProducao do not satisfy
the reads-before-writes discipline: whenever at least one line item is
present, their traces issue a product read after the document write. -/
theorem C8_amended (v : VendaPayload) (c : CompraPayload) (itens : List ProducaoItem)
    (hc : c.itens ≠ []) (hi : itens ≠ []) :
    readsBeforeWrites (vendaTrace v) = true ∧
    readsBeforeWrites (compraTrace c) = false ∧
    readsBeforeWrites (producaoTrace itens) = false := by
  refine ⟨?_, ?_, ?_⟩
  · apply readsBeforeWrites_reads_then_write
    · intro e he
      simp only [List.mem_map] at he
      obtain ⟨a, ha, rfl⟩ := he
      rfl
    · rfl
  · obtain ⟨i, is, hcc⟩ := List.exists_cons_of_ne_nil hc
    have heq : compraTrace c =
        [Evt.read "contasBancarias"] ++ Evt.write "compras" ::
          ((if c.condicaoPagamento = .A_VISTA then
              [Evt.write "contasBancarias", Evt.write "contasAPagar"]
            else
              (List.range (c.numeroParcelas.getD 1)).map fun _ =>
                Evt.write "contasAPagar") ++
           Evt.read "produtos" ::
             ([Evt.write "produtos", Evt.write "movimentacoesEstoque"] ++
              (is.map fun _ =>
                 [Evt.read "produtos", Evt.write "produtos",
                  Evt.write "movimentacoesEstoque"]).flatten)) := by
      rw [compraTrace, hcc]
      simp
    rw [heq]
    exact readsBeforeWrites_false_of_sandwich _ _ _ _ _ rfl rfl
  · obtain ⟨i, is, hii⟩ := List.exists_cons_of_ne_nil hi
    have heq : producaoTrace itens =
        ([] : List Evt) ++ Evt.write "producoes" ::
          (([] : List Evt) ++
           Evt.read "produtos" ::
             ([Evt.write "produtos", Evt.write "movimentacoesEstoque"] ++
              (is.map fun _ =>
                 [Evt.read "produtos", Evt.write "produtos",
                  Evt.write "movimentacoesEstoque"]).flatten)) := by
      rw [producaoTrace, hii]
      simp
    rw [heq]
    exact readsBeforeWrites_false_of_sandwich _ _ _ _ _ rfl rfl

def producaoItensC8 : List ProducaoItem :=
  [{ produtoId := "prod", produtoNome := "Picanha", quantidade := 2 }]

/-- C8 witness: the amended ordering facts at concrete payloads with one
line item each. -/
theorem C8_amended_witness :
    readsBeforeWrites (vendaTrace vendaC3) = true ∧
    readsBeforeWrites (compraTrace compraC8) = false ∧
    readsBeforeWrites (producaoTrace producaoItensC8) = false := by
  exact C8_amended vendaC3 compraC8 producaoItensC8
    (by simp [compraC8]) (by simp [producaoItensC8])

/-- C5: over any sequence of stock movements, the cached quantity of a
product equals its initial value plus the sum of the signed deltas of
the movements actually logged, and it never goes negative (movement
quantities are non-negative per the validated form); an exit larger
than the current quantity fails with the insufficient-stock error and
leaves the state untouched. -/
theorem C5_estoque_invariante (db : DB) (pid : String) (p : Produto)
    (movs : List MovimentacaoPayload)
    (hp : lookupA db.produtos pid = some p)
    (hq : 0 ≤ p.quantidade)
    (hpos : ∀ m ∈ movs, 0 ≤ m.quantidade) :
    (∃ p2, lookupA (aplicarMovimentacoes movs db).produtos pid = some p2 ∧
      p2.quantidade =
        p.quantidade +
          (somaDeltas pid (aplicarMovimentacoes movs db).movimentacoesEstoque -
           somaDeltas pid db.movimentacoesEstoque) ∧
      0 ≤ p2.quantidade) ∧
    (∀ m : MovimentacaoPayload, m.produtoId = pid → m.tipo = .saida →
      p.quantidade < m.quantidade →
      registrarMovimentacao m db =
        .error (.estoqueInsuficiente m.produtoNome p.quantidade m.quantidade) ∧
      run (registrarMovimentacao m) db = db) := by
  constructor
  · obtain ⟨p2, h1, h2, h3⟩ := aplicarMovimentacoes_invariante movs db pid p hp hpos
    refine ⟨p2, h1, ?_, h3 hq⟩
    linarith [h2]
  · intro m hmp hmt hlt
    have he : registrarMovimentacao m db =
        .error (.estoqueInsuficiente m.produtoNome p.quantidade m.quantidade) := by
      simp [registrarMovimentacao, hmp, hp, hmt, hlt]
    exact ⟨he, run_eq_of_error _ _ _ he⟩

/-- C5 witness: one entry of 2 onto stock 5 gives 7 equal to 5 plus the
logged delta, and an exit of 9 against stock 5 is rejected untouched. -/
theorem C5_estoque_invariante_witness :
    (∃ p2, lookupA (aplicarMovimentacoes [movC5] dbC5).produtos "prod" = some p2 ∧
      p2.quantidade =
        ({ quantidade := 5, custoUnitario := 7 } : Produto).quantidade +
          (somaDeltas "prod" (aplicarMovimentacoes [movC5] dbC5).movimentacoesEstoque -
           somaDeltas "prod" dbC5.movimentacoesEstoque) ∧
      0 ≤ p2.quantidade) ∧
    (registrarMovimentacao movC5saida dbC5 =
        .error (.estoqueInsuficiente "Picanha" 5 9) ∧
      run (registrarMovimentacao movC5saida) dbC5 = dbC5) := by
  have h := C5_estoque_invariante dbC5 "prod" { quantidade := 5, custoUnitario := 7 }
    [movC5] rfl (by norm_num)
    (by intro m hm; simp only [List.mem_singleton] at hm; subst hm; norm_num [movC5])
  exact ⟨h.1, h.2 movC5saida rfl rfl (by norm_num [movC5saida])⟩

end Dashboard
